import Mathlib

/-!
Verification development for a bridge that exposes a remote HTTP
shared-folder storage API ("STACK") through an FTP file-system provider.

The embedding below translates the two source modules
(`stack-file-system.ts` and `stack-stats.ts`) and the login hook of the
entry point into Lean.  HTTP calls are modelled by explicit request
records and by a `remote` oracle passed to the paginating listing loop;
JavaScript exceptions are modelled with `Except`.
-/

/-! ## Node `path.posix` primitives

`path.posix.join` concatenates its non-empty string arguments with `/`
and then lexically normalizes the result (`.` and `..` resolved, runs of
slashes collapsed).  It throws a `TypeError` when an argument is not a
string (in particular when it is `undefined`).  These definitions follow
Node's implementation of `join`/`normalize`. -/

/-- Split a character list on `/`, yielding the (possibly empty)
segments, mirroring how Node's `normalizeString` scans the path. -/
def splitSlashGo : List Char → List Char → List String
  | [], acc => [String.mk acc.reverse]
  | c :: cs, acc =>
    if c = '/' then String.mk acc.reverse :: splitSlashGo cs []
    else splitSlashGo cs (c :: acc)

/-- Segments of a string split on `/`. -/
def splitSlash (s : String) : List String :=
  splitSlashGo s.toList []

/-- One step of Node's lexical segment normalization: empty and `.`
segments are dropped; `..` pops the previous real segment, is kept only
for relative paths (`allowAboveRoot`) and is dropped at the root of an
absolute path.  The stack holds the kept segments in reverse order. -/
def normStep (allowAboveRoot : Bool) (stack : List String) (seg : String) : List String :=
  if seg = "" || seg = "." then stack
  else if seg = ".." then
    match stack with
    | [] => if allowAboveRoot then [".."] else []
    | top :: rest =>
      if top = ".." then
        if allowAboveRoot then ".." :: top :: rest else top :: rest
      else rest
  else seg :: stack

/-- Node `path.posix.normalize`: lexical normalization preserving
absoluteness and a trailing slash. -/
def posixNormalize (s : String) : String :=
  let cs := s.toList
  let isAbs : Bool := cs.head? = some '/'
  let trailing : Bool := cs.getLast? = some '/'
  let segs := ((splitSlash s).foldl (normStep !isAbs) []).reverse
  let body := String.intercalate "/" segs
  let body := if body = "" && !isAbs then "." else body
  let body := if body ≠ "" && trailing then body ++ "/" else body
  if isAbs then "/" ++ body else body

/-- Node `path.posix.join` on two string arguments: empty parts are
skipped, the rest are glued with `/` and normalized; joining two empty
strings yields `"."`. -/
def posixJoin (a b : String) : String :=
  if a = "" && b = "" then "."
  else if a = "" then posixNormalize b
  else if b = "" then posixNormalize a
  else posixNormalize (a ++ "/" ++ b)

/-- The JavaScript exception raised by `path.posix.join` when an
argument is `undefined` rather than a string. -/
inductive JsError where
  | typeError
deriving DecidableEq, Repr

/-- `path.posix.join base target` where `target` is an optional
(`string | undefined`) argument: Node validates every argument and
throws `TypeError` on `undefined`. -/
def posixJoinOpt (base : String) (target : Option String) : Except JsError String :=
  match target with
  | none => .error .typeError
  | some t => .ok (posixJoin base t)

/-! ## `stack-stats.ts`: the remote record and the attribute adapter -/

/-- One entry of the JSON body returned by the remote `list` endpoint
(`interface StackApiStats` in `stack-stats.ts`); JavaScript `number`
fields become `Int`. -/
structure StackApiStats where
  fileId : Int
  path : String
  mimetype : String
  etag : String
  shareToken : String
  expirationDate : String
  hasSharePassword : Bool
  shareTime : Int
  canUpload : Bool
  fileSize : Int
  isFavorited : Bool
  mtime : Int
  isPreviewable : Bool
  mediaType : String
  width : Int
  height : Int

/-- The substring of `s` after its last `/` (the whole string when it
has no `/`), mirroring `stat.path.substr(stat.path.lastIndexOf('/') + 1)`. -/
def leafNameGo : List Char → List Char → List Char
  | [], acc => acc.reverse
  | c :: cs, acc => if c = '/' then leafNameGo cs [] else leafNameGo cs (c :: acc)

/-- Leaf name of a remote path. -/
def leafName (s : String) : String :=
  String.mk (leafNameGo s.toList [])

/-- The fields of `class StackStats` that its constructor assigns.
The source also declares `dev`, `mode`, `nlink`, owner/group ids, block
fields and the extra timestamp fields, but never assigns them (they stay
`undefined` at runtime), so they are omitted here.  The JavaScript
`Date` produced from `stat.mtime * 1000` is modelled by its value in
milliseconds. -/
structure StackStats where
  mimetype : String
  ino : Int
  size : Int
  mtimeMs : Int
  name : String

/-- The `StackStats` constructor. -/
def StackStats.ofApi (stat : StackApiStats) : StackStats :=
  { mimetype := stat.mimetype
    ino := stat.fileId
    size := stat.fileSize
    mtimeMs := stat.mtime * 1000
    name := leafName stat.path }

/-- `isDirectory()`: the mimetype equals the directory sentinel. -/
def StackStats.isDirectory (s : StackStats) : Bool :=
  s.mimetype == "httpd/unix-directory"

/-- `isFile()`: negation of `isDirectory()`. -/
def StackStats.isFile (s : StackStats) : Bool :=
  !s.isDirectory

/-- `isBlockDevice()`: constantly `false`. -/
def StackStats.isBlockDevice (_ : StackStats) : Bool := false

/-- `isCharacterDevice()`: constantly `false`. -/
def StackStats.isCharacterDevice (_ : StackStats) : Bool := false

/-- `isSymbolicLink()`: constantly `false`. -/
def StackStats.isSymbolicLink (_ : StackStats) : Bool := false

/-- `isFIFO()`: constantly `false`. -/
def StackStats.isFIFO (_ : StackStats) : Bool := false

/-- `isSocket()`: constantly `false`. -/
def StackStats.isSocket (_ : StackStats) : Bool := false

/-! ## `stack-file-system.ts`: the session-backed provider -/

/-- The state of one `StackFileSystem` instance: the immutable base URL
and CSRF token captured at login, and the mutable working directory
(`workingDir`, initialized to `/`). -/
structure Session where
  baseUrl : String
  csrfToken : String
  workingDir : String
deriving DecidableEq

namespace StackFileSystem

/-- `StackFileSystem.maxFiles`: the fixed page size of the listing API. -/
def maxFiles : Nat := 100

/-- `StackFileSystem.root`: the root path of the file system. -/
def root : String := "/"

/-- Splitting the login username at its first `@` into
`(share, domain)`, as `indexOf('@')` / `substr` do; a username without
`@` yields share `""` and the whole string as domain. -/
def splitIdentityGo : List Char → List Char → String × String
  | [], acc => ("", String.mk acc.reverse)
  | c :: cs, acc =>
    if c = '@' then (String.mk acc.reverse, String.mk cs)
    else splitIdentityGo cs (c :: acc)

/-- `(share, domain)` of a username. -/
def splitIdentity (username : String) : String × String :=
  splitIdentityGo username.toList []

/-- The HTTP response to the login `POST info/` request: its status
code and the `csrf-token` response header. -/
structure LoginResponse where
  statusCode : Nat
  csrfToken : String

/-- The error thrown when login is rejected.  The source throws
`new Error` whose message embeds the attempted username; the attempted
identity it carries is modelled directly. -/
structure AuthError where
  username : String
deriving DecidableEq

/-- `StackFileSystem.create`: derive the base URL from the username,
POST the password to `info/`, and reject with an error carrying the
attempted identity unless the status is 200; on 200 return the new
instance (working directory `/`). -/
def create (username _password : String) (res : LoginResponse) : Except AuthError Session :=
  let sd := splitIdentity username
  let baseUrl := "https://" ++ sd.2 ++ "/public-share/" ++ sd.1 ++ "/"
  if res.statusCode ≠ 200 then
    .error ⟨username⟩
  else
    .ok { baseUrl := baseUrl, csrfToken := res.csrfToken, workingDir := root }

/-- `currentDirectory()`: returns the working directory. -/
def currentDirectory (s : Session) : String :=
  s.workingDir

/-- `chdir(fileName?)`: sets the working directory to
`path.posix.join(this.root, fileName)` and returns it. -/
def chdir (s : Session) (fileName : Option String) : Except JsError (String × Session) :=
  match posixJoinOpt root fileName with
  | .error e => .error e
  | .ok wd => .ok (wd, { s with workingDir := wd })

end StackFileSystem

/-- The error produced when a remote request's promise rejects
(transport failure), carrying its message. -/
structure RemoteApiError where
  message : String
deriving DecidableEq

/-- Outcome of the pagination loop of `list`:
`ok nodes requests` — the loop returned `nodes` after issuing the GET
requests `(dir, offset)` in `requests` (each with the constant query
parameters `type=folder`, `limit=100`, `sortBy=default`, `order=asc`);
`err e` — an awaited page request rejected, aborting the call;
`hang` — the supplied fuel ran out (the loop does not terminate on its
own when a response without a `nodes` field follows a full page). -/
inductive ListOutcome where
  | ok (nodes : List StackStats) (requests : List (String × Nat))
  | err (e : RemoteApiError)
  | hang

/-- The body of the `do … while (fetched === maxFiles)` loop of
`list`.  `remote i` is the response to the page request at offset
`i * maxFiles`: `.error` models a rejected promise, `.ok none` a
response whose `body`/`body.nodes` is falsy, `.ok (some ns)` a page of
records.  State: page index `i`, last `fetched` count, accumulated
`nodes` and issued `requests`. -/
def listLoop (remote : Nat → Except RemoteApiError (Option (List StackApiStats)))
    (dir : String) :
    Nat → Nat → Nat → List StackStats → List (String × Nat) → ListOutcome
  | 0, _, _, _, _ => .hang
  | fuel + 1, i, fetched, nodes, reqs =>
    let reqs' := reqs ++ [(dir, i * StackFileSystem.maxFiles)]
    match remote i with
    | .error e => .err e
    | .ok body =>
      match body with
      | some ns =>
        let fetched' := ns.length
        let nodes' := nodes ++ ns.map StackStats.ofApi
        if fetched' = StackFileSystem.maxFiles then
          listLoop remote dir fuel (i + 1) fetched' nodes' reqs'
        else .ok nodes' reqs'
      | none =>
        if fetched = StackFileSystem.maxFiles then
          listLoop remote dir fuel i fetched nodes reqs'
        else .ok nodes reqs'

namespace StackFileSystem

/-- The path `list` computes on entry:
`path.posix.join(this.cwd, fileName)` (line 132), passed as the `dir`
query parameter of every page request. -/
def listPath (s : Session) (fileName : Option String) : Except JsError String :=
  posixJoinOpt s.workingDir fileName

/-- `list(fileName?)`: resolve the client path against the working
directory, then run the pagination loop; the working directory is not
modified, so the session is returned unchanged alongside the outcome. -/
def list (s : Session) (fileName : Option String)
    (remote : Nat → Except RemoteApiError (Option (List StackApiStats)))
    (fuel : Nat) : Except JsError (ListOutcome × Session) :=
  match listPath s fileName with
  | .error e => .error e
  | .ok clientPath => .ok (listLoop remote clientPath fuel 0 0 [] [], s)

/-- The `POST download` request issued by `read`. -/
structure DownloadRequest where
  baseUrl : String
  url : String
  method : String
  csrfToken : String
  paths : List String
deriving DecidableEq

/-- `read(fileName)`: joins the working directory with the target and
issues the download request with the resolved path in `paths[]`. -/
def read (s : Session) (fileName : String) : DownloadRequest :=
  let clientPath := posixJoin s.workingDir fileName
  { baseUrl := s.baseUrl
    url := "download"
    method := "POST"
    csrfToken := s.csrfToken
    paths := [clientPath] }

/-- Result of one provider operation that performs no remote request on
its own: the paths it resolved for its diagnostic log line, the remote
API calls it issued, and its outcome (`.error msg` models a thrown
`Error(msg)`). -/
structure OpResult (α : Type) where
  resolvedPaths : List String
  apiCalls : List String
  outcome : Except String α

/-- The object literal returned by `get`. -/
structure GetStat where
  isDirectory : Bool
deriving DecidableEq

/-- `get(fileName)`: joins the working directory with the file name for
the log line and returns `{ isDirectory: () => true }`; no remote call. -/
def get (s : Session) (fileName : String) : OpResult GetStat :=
  { resolvedPaths := [posixJoin s.workingDir fileName]
    apiCalls := []
    outcome := .ok ⟨true⟩ }

/-- `delete(fileName)`: resolves the path for the log line, then throws
`Error('Method not implemented.')`; no remote call. -/
def delete (s : Session) (fileName : String) : OpResult Unit :=
  { resolvedPaths := [posixJoin s.workingDir fileName]
    apiCalls := []
    outcome := .error "Method not implemented." }

/-- `mkdir(fileName)`: resolves the path for the log line, then throws
`Error('Method not implemented.')`; no remote call. -/
def mkdir (s : Session) (fileName : String) : OpResult Unit :=
  { resolvedPaths := [posixJoin s.workingDir fileName]
    apiCalls := []
    outcome := .error "Method not implemented." }

/-- `rename(from, to)`: resolves both paths for the log line, then
throws `Error('Method not implemented.')`; no remote call. -/
def rename (s : Session) (fro tgt : String) : OpResult Unit :=
  { resolvedPaths := [posixJoin s.workingDir fro, posixJoin s.workingDir tgt]
    apiCalls := []
    outcome := .error "Method not implemented." }

/-- `chmod(fileName, mode)`: resolves the path for the log line, then
throws `Error('Method not implemented.')`; no remote call. -/
def chmod (s : Session) (fileName _mode : String) : OpResult Unit :=
  { resolvedPaths := [posixJoin s.workingDir fileName]
    apiCalls := []
    outcome := .error "Method not implemented." }

/-- `getUniqueName()`: logs, then throws
`Error('Method not implemented.')`; no path argument, no remote call. -/
def getUniqueName (_ : Session) : OpResult String :=
  { resolvedPaths := []
    apiCalls := []
    outcome := .error "Method not implemented." }

end StackFileSystem

/-- Harness for C2: run a sequence of `chdir` calls with string targets
from a starting session (the error branch is unreachable for string
targets and keeps the session unchanged). -/
def runChdirs (s : Session) (ts : List String) : Session :=
  ts.foldl (fun acc t =>
    match StackFileSystem.chdir acc (some t) with
    | .ok p => p.2
    | .error _ => acc) s

/-- Whether a listing outcome is a remote-error failure (a rejected
page request), as opposed to a returned record list or fuel
exhaustion. -/
def ListOutcome.isErr : ListOutcome → Bool
  | .err _ => true
  | _ => false

/-! ## Claims -/

/-- C1, counterexample: with `cwd = "/a"`, `read("/a/b.txt")` puts
`/a/a/b.txt` — not `/a/b.txt` — in the download request, because
`path.posix.join` appends an absolute target instead of substituting it. -/
theorem C1_counterexample :
    (StackFileSystem.read ⟨"https://d/public-share/s/", "tok", "/a"⟩ "/a/b.txt").paths
        = ["/a/a/b.txt"]
    ∧ ("/a/a/b.txt" : String) ≠ "/a/b.txt" :=
  ⟨rfl, by decide⟩

/-- C1, amended: `read` resolves its target by POSIX-joining the
current working directory with the target (an absolute target is
appended and lexically normalized, not substituted), so with
`cwd = "/a"` the request for target `/a/b.txt` is issued for
`/a/a/b.txt`. -/
theorem C1_read_joins_cwd_and_target :
    (∀ (s : Session) (t : String),
        StackFileSystem.read s t =
          { baseUrl := s.baseUrl, url := "download", method := "POST",
            csrfToken := s.csrfToken, paths := [posixJoin s.workingDir t] })
    ∧ (∀ base tok : String,
        StackFileSystem.read ⟨base, tok, "/a"⟩ "/a/b.txt" =
          { baseUrl := base, url := "download", method := "POST",
            csrfToken := tok, paths := ["/a/a/b.txt"] }) :=
  ⟨fun _ _ => rfl, fun _ _ => rfl⟩

/-- C2, counterexample: starting from `/`, `chdir("a")` then
`chdir("b")` leaves the working directory at `/b`, not at the
left-to-right POSIX-join `/a/b` the claim predicts, because `chdir`
joins every target against the root instead of the current working
directory. -/
theorem C2_counterexample :
    StackFileSystem.chdir ⟨"b", "t", "/"⟩ (some "a") = .ok ("/a", ⟨"b", "t", "/a"⟩)
    ∧ StackFileSystem.chdir ⟨"b", "t", "/a"⟩ (some "b") = .ok ("/b", ⟨"b", "t", "/b"⟩)
    ∧ posixJoin "/a" "b" = "/a/b"
    ∧ ("/b" : String) ≠ "/a/b" :=
  ⟨rfl, rfl, rfl, by decide⟩

/-- C2, amended: every `chdir` call resolves its target against the
root `/` (not the current working directory) with lexical POSIX-join
semantics, so after any sequence of calls the working directory is the
POSIX-join of `/` with the last target alone, and `chdir("..")` from
`/` stays at `/`. -/
theorem C2_chdir_resolves_against_root :
    (∀ (s : Session) (t : String),
        StackFileSystem.chdir s (some t)
          = .ok (posixJoin "/" t, { s with workingDir := posixJoin "/" t }))
    ∧ (∀ (s : Session) (ts : List String) (t : String),
        (runChdirs s (ts ++ [t])).workingDir = posixJoin "/" t)
    ∧ StackFileSystem.chdir ⟨"b", "t", "/"⟩ (some "..") = .ok ("/", ⟨"b", "t", "/"⟩) := by
  refine ⟨fun _ _ => rfl, ?_, rfl⟩
  intro s ts t
  simp [runChdirs, List.foldl_append, StackFileSystem.chdir, posixJoinOpt,
    StackFileSystem.root]

/-- C3, counterexample: with `cwd = "/a"`, `list("b")` resolves to
`/a/b` while `chdir("b")` resolves to `/b` — the two resolutions
differ, since `list` joins against the working directory but `chdir`
joins against the root. -/
theorem C3_counterexample :
    StackFileSystem.listPath ⟨"b", "t", "/a"⟩ (some "b") = .ok "/a/b"
    ∧ StackFileSystem.chdir ⟨"b", "t", "/a"⟩ (some "b") = .ok ("/b", ⟨"b", "t", "/b"⟩)
    ∧ ("/a/b" : String) ≠ "/b" :=
  ⟨rfl, rfl, by decide⟩

/-- C3, amended: `list` resolves its target against the current working
directory by POSIX join and leaves the working directory unchanged;
`chdir` resolves against the root instead, so the two resolutions agree
whenever the working directory is `/`. -/
theorem C3_list_resolves_against_cwd :
    (∀ (s : Session) (t : String),
        StackFileSystem.listPath s (some t) = .ok (posixJoin s.workingDir t))
    ∧ (∀ (s : Session) (t : Option String)
        (remote : Nat → Except RemoteApiError (Option (List StackApiStats)))
        (fuel : Nat) (r : ListOutcome) (s' : Session),
        StackFileSystem.list s t remote fuel = .ok (r, s') → s' = s)
    ∧ (∀ (s : Session) (t : String), s.workingDir = "/" →
        StackFileSystem.listPath s (some t)
          = (StackFileSystem.chdir s (some t)).map Prod.fst) := by
  refine ⟨fun _ _ => rfl, ?_, ?_⟩
  · intro s t remote fuel r s' h
    unfold StackFileSystem.list at h
    cases hl : StackFileSystem.listPath s t with
    | error e => rw [hl] at h; exact absurd h (by simp)
    | ok cp => rw [hl] at h; simp at h; exact h.2.symm
  · intro s t h
    simp [StackFileSystem.listPath, StackFileSystem.chdir, posixJoinOpt,
      StackFileSystem.root, h, Except.map]

/-- C3, witness: the amended statement applied at a session with
working directory `/` and at a concrete one-page listing call. -/
theorem C3_witness :
    StackFileSystem.listPath ⟨"b", "t", "/"⟩ (some "x")
        = (StackFileSystem.chdir ⟨"b", "t", "/"⟩ (some "x")).map Prod.fst
    ∧ (⟨"b", "t", "/"⟩ : Session) = ⟨"b", "t", "/"⟩ :=
  ⟨C3_list_resolves_against_cwd.2.2 ⟨"b", "t", "/"⟩ "x" rfl,
   C3_list_resolves_against_cwd.2.1 ⟨"b", "t", "/"⟩ (some "x")
     (fun _ => .ok (some [])) 1 (ListOutcome.ok [] [("/x", 0)]) ⟨"b", "t", "/"⟩ rfl⟩

/-- C6: for every identity and password, a login response with HTTP
status 200 makes `create` return the authenticated session (base URL
derived from the identity, working directory `/`); any other status
makes it fail with the error carrying the attempted identity, so no
session reaches the caller. -/
theorem C6_login (username password : String) (res : StackFileSystem.LoginResponse) :
    (res.statusCode = 200 →
        StackFileSystem.create username password res
          = .ok { baseUrl := "https://" ++ (StackFileSystem.splitIdentity username).2
                    ++ "/public-share/" ++ (StackFileSystem.splitIdentity username).1 ++ "/",
                  csrfToken := res.csrfToken, workingDir := "/" })
    ∧ (res.statusCode ≠ 200 →
        StackFileSystem.create username password res = .error ⟨username⟩) := by
  constructor
  · intro h
    simp [StackFileSystem.create, h, StackFileSystem.root]
  · intro h
    simp [StackFileSystem.create, h]

/-- C6, witness: `create` at `a@b` with status 200 and with status 403. -/
theorem C6_witness :
    StackFileSystem.create "a@b" "pw" ⟨200, "tok"⟩
        = .ok ⟨"https://b/public-share/a/", "tok", "/"⟩
    ∧ StackFileSystem.create "a@b" "pw" ⟨403, "tok"⟩ = .error ⟨"a@b"⟩ := by
  constructor
  · have h := (C6_login "a@b" "pw" ⟨200, "tok"⟩).1 rfl
    simpa using h
  · exact (C6_login "a@b" "pw" ⟨403, "tok"⟩).2 (by decide)

/-- C7: the adapter marks a record as a directory exactly when its
mimetype is the sentinel `httpd/unix-directory`, and the symlink,
block-device, character-device, socket and FIFO predicates are false
for every record. -/
theorem C7_adapter_predicates (r : StackApiStats) :
    ((StackStats.ofApi r).isDirectory = true ↔ r.mimetype = "httpd/unix-directory")
    ∧ (StackStats.ofApi r).isSymbolicLink = false
    ∧ (StackStats.ofApi r).isBlockDevice = false
    ∧ (StackStats.ofApi r).isCharacterDevice = false
    ∧ (StackStats.ofApi r).isSocket = false
    ∧ (StackStats.ofApi r).isFIFO = false := by
  refine ⟨?_, rfl, rfl, rfl, rfl, rfl⟩
  simp [StackStats.isDirectory, StackStats.ofApi]

/-- C7, witness: the directory sentinel on a concrete record. -/
theorem C7_witness :
    (StackStats.ofApi
        ⟨1, "/d/sub", "httpd/unix-directory", "", "", "", false, 0, false, 0,
          false, 0, false, "", 0, 0⟩).isDirectory = true :=
  (C7_adapter_predicates _).1.mpr rfl

/-- C8: `delete`, `mkdir`, `rename`, `chmod` and `getUniqueName`
resolve their path arguments only for the diagnostic log line, issue no
remote API call, and always fail with the fixed
`Method not implemented.` error — never a silent success. -/
theorem C8_unsupported_operations (s : Session) (f t mode : String) :
    StackFileSystem.delete s f
        = ⟨[posixJoin s.workingDir f], [], .error "Method not implemented."⟩
    ∧ StackFileSystem.mkdir s f
        = ⟨[posixJoin s.workingDir f], [], .error "Method not implemented."⟩
    ∧ StackFileSystem.rename s f t
        = ⟨[posixJoin s.workingDir f, posixJoin s.workingDir t], [],
            .error "Method not implemented."⟩
    ∧ StackFileSystem.chmod s f mode
        = ⟨[posixJoin s.workingDir f], [], .error "Method not implemented."⟩
    ∧ StackFileSystem.getUniqueName s = ⟨[], [], .error "Method not implemented."⟩ :=
  ⟨rfl, rfl, rfl, rfl, rfl⟩

/-- C9: `get` performs no remote API call and always succeeds with an
object whose `isDirectory()` is true, for every file name. -/
theorem C9_get_always_directory (s : Session) (f : String) :
    StackFileSystem.get s f = ⟨[posixJoin s.workingDir f], [], .ok ⟨true⟩⟩
    ∧ (StackFileSystem.get s f).apiCalls = []
    ∧ ∃ g, (StackFileSystem.get s f).outcome = .ok g ∧ g.isDirectory = true :=
  ⟨rfl, rfl, ⟨⟨true⟩, rfl, rfl⟩⟩

/-- One iteration of `listLoop` on a full page: the page's records are
appended, the offset advances by one page, and the loop continues. -/
theorem listLoop_advance (remote : Nat → Except RemoteApiError (Option (List StackApiStats)))
    (dir : String) (fuel i fetched : Nat) (nodes : List StackStats)
    (reqs : List (String × Nat)) (ns : List StackApiStats)
    (h : remote i = .ok (some ns)) (hlen : ns.length = StackFileSystem.maxFiles) :
    listLoop remote dir (fuel + 1) i fetched nodes reqs
      = listLoop remote dir fuel (i + 1) StackFileSystem.maxFiles
          (nodes ++ ns.map StackStats.ofApi)
          (reqs ++ [(dir, i * StackFileSystem.maxFiles)]) := by
  simp [listLoop, h, hlen]

/-- Running `listLoop` across `k` consecutive full pages accumulates
exactly those pages and their requests, in order. -/
theorem listLoop_full_prefix (remote : Nat → Except RemoteApiError (Option (List StackApiStats)))
    (dir : String) (pages : Nat → List StackApiStats) :
    ∀ (k i fuel fetched : Nat) (nodes : List StackStats) (reqs : List (String × Nat)),
      (∀ j ∈ List.range' i k,
        remote j = .ok (some (pages j)) ∧ (pages j).length = StackFileSystem.maxFiles) →
      ∃ f, listLoop remote dir (fuel + k) i fetched nodes reqs
        = listLoop remote dir fuel (i + k) f
            (nodes ++ ((List.range' i k).map pages).flatten.map StackStats.ofApi)
            (reqs ++ (List.range' i k).map fun j => (dir, j * StackFileSystem.maxFiles)) := by
  intro k
  induction k with
  | zero =>
    intro i fuel fetched nodes reqs _
    exact ⟨fetched, by simp [List.range']⟩
  | succ k ih =>
    intro i fuel fetched nodes reqs h
    have h0 := h i (by simp [List.range'])
    have step := listLoop_advance remote dir (fuel + k) i fetched nodes reqs (pages i) h0.1 h0.2
    obtain ⟨f, hf⟩ := ih (i + 1) fuel StackFileSystem.maxFiles
      (nodes ++ (pages i).map StackStats.ofApi)
      (reqs ++ [(dir, i * StackFileSystem.maxFiles)])
      (fun j hj => h j (by
        simp [List.mem_range'_1] at hj ⊢
        omega))
    refine ⟨f, ?_⟩
    have harith : fuel + (k + 1) = (fuel + k) + 1 := rfl
    rw [harith, step, hf]
    have harg : (i + 1) + k = i + (k + 1) := by omega
    rw [harg]
    congr 1
    · simp [List.range', List.append_assoc]
    · simp [List.range', List.append_assoc]

/-- C4: for every well-formed page sequence, `list`'s loop requests
offsets `0, 100, 200, …` in order, stops after the first page shorter
than 100 (including empty), and returns all pages concatenated in fetch
order through the adapter; `100, 100, 37` yields 237 records with
requests at offsets 0, 100, 200, and a 100-record directory incurs the
trailing empty-page request at offset 100. -/
theorem C4_pagination :
    (∀ (p : Nat → List StackApiStats) (s : Session) (t : String) (k fuel : Nat),
        (∀ j, j < k → (p j).length = StackFileSystem.maxFiles) →
        (p k).length < StackFileSystem.maxFiles →
        k < fuel →
        StackFileSystem.list s (some t) (fun i => .ok (some (p i))) fuel
          = .ok (.ok (((List.range (k + 1)).map p).flatten.map StackStats.ofApi)
              ((List.range (k + 1)).map fun j =>
                (posixJoin s.workingDir t, j * StackFileSystem.maxFiles)), s))
    ∧ (∀ (p : Nat → List StackApiStats) (dir : String) (k fuel : Nat),
        (∀ j, j < k → (p j).length = StackFileSystem.maxFiles) →
        (p k).length < StackFileSystem.maxFiles →
        k < fuel →
        listLoop (fun i => .ok (some (p i))) dir fuel 0 0 [] []
          = .ok (((List.range (k + 1)).map p).flatten.map StackStats.ofApi)
              ((List.range (k + 1)).map fun j => (dir, j * StackFileSystem.maxFiles)))
    ∧ (∀ (r : StackApiStats) (dir : String), ∃ nodes,
        listLoop (fun i => .ok (some ([List.replicate 100 r, List.replicate 100 r,
            List.replicate 37 r].getD i []))) dir 4 0 0 [] []
          = .ok nodes [(dir, 0), (dir, 100), (dir, 200)]
        ∧ nodes.length = 237)
    ∧ (∀ (r : StackApiStats) (dir : String), ∃ nodes,
        listLoop (fun i => .ok (some ([List.replicate 100 r].getD i []))) dir 2 0 0 [] []
          = .ok nodes [(dir, 0), (dir, 100)]
        ∧ nodes.length = 100) := by
  have general : ∀ (p : Nat → List StackApiStats) (dir : String) (k fuel : Nat),
      (∀ j, j < k → (p j).length = StackFileSystem.maxFiles) →
      (p k).length < StackFileSystem.maxFiles →
      k < fuel →
      listLoop (fun i => .ok (some (p i))) dir fuel 0 0 [] []
        = .ok (((List.range (k + 1)).map p).flatten.map StackStats.ofApi)
            ((List.range (k + 1)).map fun j => (dir, j * StackFileSystem.maxFiles)) := by
    intro p dir k fuel hfull hshort hfuel
    obtain ⟨m, rfl⟩ : ∃ m, fuel = (m + 1) + k := ⟨fuel - k - 1, by omega⟩
    obtain ⟨f, hf⟩ := listLoop_full_prefix (fun i => .ok (some (p i))) dir p k 0 (m + 1) 0 [] []
      (fun j hj => ⟨rfl, hfull j (by simp [List.mem_range'_1] at hj; omega)⟩)
    rw [hf]
    have hne : (p k).length ≠ StackFileSystem.maxFiles := Nat.ne_of_lt hshort
    simp [listLoop, hne, List.range_succ, List.range_eq_range', List.append_assoc]
  refine ⟨?_, general, ?_, ?_⟩
  · intro p s t k fuel hfull hshort hfuel
    simp [StackFileSystem.list, StackFileSystem.listPath, posixJoinOpt,
      general p (posixJoin s.workingDir t) k fuel hfull hshort hfuel]
  · intro r dir
    have h := general
      (fun i => [List.replicate 100 r, List.replicate 100 r, List.replicate 37 r].getD i [])
      dir 2 4
      (fun j hj => by interval_cases j <;> simp [StackFileSystem.maxFiles])
      (by simp [StackFileSystem.maxFiles])
      (by omega)
    refine ⟨_, h, ?_⟩
    simp only [List.range_succ, List.range_zero, List.nil_append, List.cons_append,
      List.map_cons, List.map_nil, List.map_append, List.getD_cons_zero,
      List.getD_cons_succ, List.length_map, List.length_flatten, List.flatten_cons,
      List.flatten_nil, List.length_append, List.length_replicate, List.length_nil,
      List.map_map]
  · intro r dir
    have h := general (fun i => [List.replicate 100 r].getD i []) dir 1 2
      (fun j hj => by interval_cases j; simp [StackFileSystem.maxFiles])
      (by simp [StackFileSystem.maxFiles])
      (by omega)
    refine ⟨_, h, ?_⟩
    simp only [List.range_succ, List.range_zero, List.nil_append, List.cons_append,
      List.map_cons, List.map_nil, List.map_append, List.getD_cons_zero,
      List.getD_cons_succ, List.length_map, List.length_flatten, List.flatten_cons,
      List.flatten_nil, List.length_append, List.length_replicate, List.length_nil,
      List.map_map]
    simp [List.getD]

/-- C4, witness: the pagination theorem applied to a remote whose first
page is already empty. -/
theorem C4_witness :
    StackFileSystem.list ⟨"b", "t", "/"⟩ (some "x") (fun _ => .ok (some [])) 1
      = .ok (.ok [] [("/x", 0)], ⟨"b", "t", "/"⟩) := by
  have h := C4_pagination.1 (fun _ => []) ⟨"b", "t", "/"⟩ "x" 0 1
    (fun j hj => absurd hj (Nat.not_lt_zero j))
    (by simp [StackFileSystem.maxFiles]) Nat.zero_lt_one
  simpa using h

/-- A page request whose resolved response carries no `nodes` field,
arriving while `fetched` equals the page size: the loop body changes
neither the page index nor `fetched`, so the `while` condition stays
true and every amount of fuel is exhausted — the source re-requests the
same offset forever. -/
theorem listLoop_nodeless_after_full
    (remote : Nat → Except RemoteApiError (Option (List StackApiStats)))
    (dir : String) (i : Nat) (h : remote i = .ok none) :
    ∀ (fuel : Nat) (nodes : List StackStats) (reqs : List (String × Nat)),
      listLoop remote dir fuel i StackFileSystem.maxFiles nodes reqs = .hang := by
  intro fuel
  induction fuel with
  | zero => intro nodes reqs; rfl
  | succ fuel ih =>
    intro nodes reqs
    simp only [listLoop, h]
    exact ih nodes (reqs ++ [(dir, i * StackFileSystem.maxFiles)])

/-- C5, counterexample: a failing page fetch does not make `list` fail
when the failure is a non-2xx response rather than a rejected promise:
the response resolves without a `nodes` field, `list` never checks the
status code, and the call succeeds with an empty record list instead of
a `RemoteApiError`. -/
theorem C5_counterexample :
    StackFileSystem.list ⟨"b", "t", "/"⟩ (some "x") (fun _ => .ok none) 1
      = .ok (ListOutcome.ok [] [("/x", 0)], ⟨"b", "t", "/"⟩)
    ∧ (ListOutcome.ok [] [("/x", 0)]).isErr = false :=
  ⟨rfl, rfl⟩

/-- C5, amended: only a page request whose promise rejects (a transport
failure) aborts `list`: then the whole call fails with that error and
every page fetched before it is discarded, never returned partially.
`list` never inspects the HTTP status, so a non-2xx page — a resolved
response without a `nodes` field — is not a failure: as the first page
it makes the call succeed with an empty listing, and arriving after a
full page it leaves the loop re-requesting the same offset until the
fuel (in the source: forever) runs out, so no `RemoteApiError`
surfaces. -/
theorem C5_list_failure_modes :
    (∀ (remote : Nat → Except RemoteApiError (Option (List StackApiStats)))
        (pages : Nat → List StackApiStats) (k : Nat) (e : RemoteApiError)
        (fuel : Nat) (s : Session) (t : String),
        (∀ j, j < k →
          remote j = .ok (some (pages j)) ∧ (pages j).length = StackFileSystem.maxFiles) →
        remote k = .error e → k < fuel →
        StackFileSystem.list s (some t) remote fuel = .ok (ListOutcome.err e, s))
    ∧ (∀ (remote : Nat → Except RemoteApiError (Option (List StackApiStats)))
        (s : Session) (t : String) (fuel : Nat),
        remote 0 = .ok none →
        StackFileSystem.list s (some t) remote (fuel + 1)
          = .ok (ListOutcome.ok [] [(posixJoin s.workingDir t, 0)], s))
    ∧ (∀ (remote : Nat → Except RemoteApiError (Option (List StackApiStats)))
        (s : Session) (t : String) (fuel : Nat) (ns : List StackApiStats),
        remote 0 = .ok (some ns) → ns.length = StackFileSystem.maxFiles →
        remote 1 = .ok none →
        StackFileSystem.list s (some t) remote fuel = .ok (ListOutcome.hang, s)) := by
  refine ⟨?_, ?_, ?_⟩
  · intro remote pages k e fuel s t hfull herr hfuel
    obtain ⟨m, rfl⟩ : ∃ m, fuel = (m + 1) + k := ⟨fuel - k - 1, by omega⟩
    obtain ⟨f, hf⟩ := listLoop_full_prefix remote (posixJoin s.workingDir t) pages k 0 (m + 1)
      0 [] [] (fun j hj => hfull j (by simp [List.mem_range'_1] at hj; omega))
    simp [StackFileSystem.list, StackFileSystem.listPath, posixJoinOpt]
    rw [hf]
    simp [listLoop, herr]
  · intro remote s t fuel h0
    simp [StackFileSystem.list, StackFileSystem.listPath, posixJoinOpt, listLoop, h0,
      StackFileSystem.maxFiles]
  · intro remote s t fuel ns h0 hlen h1
    cases fuel with
    | zero =>
      simp [StackFileSystem.list, StackFileSystem.listPath, posixJoinOpt, listLoop]
    | succ fuel =>
      have hloop : listLoop remote (posixJoin s.workingDir t) (fuel + 1) 0 0 [] [] = .hang := by
        rw [listLoop_advance remote (posixJoin s.workingDir t) fuel 0 0 [] [] ns h0 hlen]
        exact listLoop_nodeless_after_full remote (posixJoin s.workingDir t) 1 h1 fuel
          (List.map StackStats.ofApi ns) [(posixJoin s.workingDir t, 0)]
      simp [StackFileSystem.list, StackFileSystem.listPath, posixJoinOpt, hloop]

/-- C5, witness: the three failure modes at concrete inputs — a
rejecting first page fails the call, a nodeless first page succeeds
with an empty listing, and a nodeless page after a full page exhausts
the fuel. -/
theorem C5_witness :
    StackFileSystem.list ⟨"b", "t", "/"⟩ (some "x") (fun _ => .error ⟨"boom"⟩) 1
      = .ok (ListOutcome.err ⟨"boom"⟩, ⟨"b", "t", "/"⟩)
    ∧ StackFileSystem.list ⟨"b", "t", "/"⟩ (some "y") (fun _ => .ok none) 1
      = .ok (ListOutcome.ok [] [("/y", 0)], ⟨"b", "t", "/"⟩)
    ∧ StackFileSystem.list ⟨"b", "t", "/"⟩ (some "z")
        (fun j => if j = 0
          then .ok (some (List.replicate 100
            ⟨0, "", "", "", "", "", false, 0, false, 0, false, 0, false, "", 0, 0⟩))
          else .ok none) 3
      = .ok (ListOutcome.hang, ⟨"b", "t", "/"⟩) :=
  ⟨C5_list_failure_modes.1 (fun _ => .error ⟨"boom"⟩) (fun _ => []) 0 ⟨"boom"⟩ 1
      ⟨"b", "t", "/"⟩ "x" (fun j hj => absurd hj (Nat.not_lt_zero j)) rfl Nat.zero_lt_one,
   C5_list_failure_modes.2.1 (fun _ => .ok none) ⟨"b", "t", "/"⟩ "y" 0 rfl,
   C5_list_failure_modes.2.2 _ ⟨"b", "t", "/"⟩ "z" 3
     (List.replicate 100 ⟨0, "", "", "", "", "", false, 0, false, 0, false, 0, false, "", 0, 0⟩)
     rfl (by simp [StackFileSystem.maxFiles]) rfl⟩

/-- C10: calling `chdir` or `list` with the optional target omitted
(`undefined`) fails with the `TypeError` of `path.posix.join` instead
of defaulting to the current working directory. -/
theorem C10_undefined_target_type_error (s : Session)
    (remote : Nat → Except RemoteApiError (Option (List StackApiStats)))
    (fuel : Nat) :
    StackFileSystem.chdir s none = .error JsError.typeError
    ∧ StackFileSystem.list s none remote fuel = .error JsError.typeError :=
  ⟨rfl, rfl⟩

